import Mathlib

/-!
# Verification of the document-forgery-detection backend decision engine

Shallow embedding of the decision engine of the repository
`doc-forgery-detection-backend`:

* `src/services/imageService.js` — perceptual hash comparison (`compareImages`,
  `calculateImageHash`, `calculateSimilarity`, the inline size-similarity
  formula) — this is the comparison service the controller imports;
* `src/controllers/documentController.js` — `verifyDocument`: signal
  collection from filename/path, corpus-empty bootstrap, and the fusion rule;
* the legacy `looks-same` comparison variant (unnamed source file,
  `compareImagesLS` here) with its randomized fallback
  `calculateSimpleSimilarity`.

JavaScript numbers in the scoring path are modelled as `Option ℚ`, where
`none` stands for the IEEE `NaN` that JS produces at `0 / 0`.  In this code a
division has a zero denominator only when the numerator is zero as well
(`|a-b| / max(a,b)` at `a = b = 0`, `similar / hash1.length` at length 0), so
`none` exactly on a zero denominator is faithful.  Comparisons with `NaN` are
false in JS, which the `j…` comparison helpers mirror.  The file system is an
explicit environment: a file is its decode result (`none` when the image
library cannot decode it) plus its byte size.
-/

namespace DocForgery

/-! ## Kernel-computable rational arithmetic

Batteries marks `Rat.add`, `Rat.mul`, `Rat.sub` and `Rat.inv` irreducible, so
closed instances of the embedding could not be evaluated by `decide` through
them.  The embedding therefore computes with `mkRat`-based operations `qadd`,
`qmul`, `qsub`, which the simp lemmas below prove equal to the ordinary field
operations of `ℚ`. -/

/-- Rational addition, computably. -/
def qadd (a b : ℚ) : ℚ :=
  mkRat (a.num * b.den + b.num * a.den) (a.den * b.den)

/-- Rational multiplication, computably. -/
def qmul (a b : ℚ) : ℚ :=
  mkRat (a.num * b.num) (a.den * b.den)

/-- Rational subtraction, computably. -/
def qsub (a b : ℚ) : ℚ :=
  mkRat (a.num * b.den - b.num * a.den) (a.den * b.den)

/-! ## JS number helpers (`Option ℚ`, `none` = NaN) -/

/-- JS division of two non-negative integer quantities, as it occurs at every
division site of this program: `none` (NaN) when the denominator is zero (at
those sites the numerator is then zero as well, so the JS result is
`0/0 = NaN`). -/
def jdiv (a b : Nat) : Option ℚ :=
  if b = 0 then none else some (mkRat a b)

/-- JS `+` with NaN propagation. -/
def jadd : Option ℚ → Option ℚ → Option ℚ
  | some a, some b => some (qadd a b)
  | _, _ => none

/-- JS `*` by a constant, with NaN propagation. -/
def jmul (a : Option ℚ) (c : ℚ) : Option ℚ :=
  a.map (fun x => qmul x c)

/-- JS `x < b`: false when `x` is NaN. -/
def jlt (a : Option ℚ) (b : ℚ) : Bool :=
  match a with
  | some x => decide (x < b)
  | none => false

/-- JS `x >= b`: false when `x` is NaN. -/
def jge (a : Option ℚ) (b : ℚ) : Bool :=
  match a with
  | some x => decide (b ≤ x)
  | none => false

/-- JS `p > avg` for a pixel value against a possibly-NaN average. -/
def jgtOpt (p : ℚ) (avg : Option ℚ) : Bool :=
  match avg with
  | some a => decide (a < p)
  | none => false

/-! ## String helpers (JS `String.prototype` operations used by the code) -/

/-- JS `toLowerCase()` (ASCII-level, which is all the code relies on). -/
def lowerStr (s : String) : String :=
  String.mk (s.toList.map Char.toLower)

/-- Boolean list-prefix test. -/
def prefixOfB : List Char → List Char → Bool
  | [], _ => true
  | _ :: _, [] => false
  | a :: as, b :: bs => a == b && prefixOfB as bs

/-- Boolean list-infix test: the pattern occurs contiguously somewhere. -/
def infixOfB (pat : List Char) : List Char → Bool
  | [] => pat.isEmpty
  | b :: bs => prefixOfB pat (b :: bs) || infixOfB pat bs

/-- Boolean list-suffix test. -/
def suffixOfB (pat s : List Char) : Bool :=
  prefixOfB pat.reverse s.reverse

/-- JS `String.prototype.includes` (case-sensitive substring test). -/
def strContains (s pat : String) : Bool :=
  infixOfB pat.toList s.toList

/-- Node `path.basename(p)` followed by stripping `path.extname`: the part of
the path after the last `/`, with its extension (the suffix from the last dot,
provided that dot is not the first character of the basename) removed.  This
is exactly `path.basename(p, path.extname(p))` for the file paths the engine
handles. -/
def baseNoExt (p : String) : String :=
  let b := (p.toList.reverse.takeWhile (fun c => c ≠ '/')).reverse
  let afterDot := b.reverse.takeWhile (fun c => c ≠ '.')
  if afterDot.length + 2 ≤ b.length then
    String.mk (b.take (b.length - afterDot.length - 1))
  else
    String.mk b

/-- The extension filter `/\.(jpg|jpeg|png|tif|tiff|bmp)$/i` applied by every
directory listing in the code. -/
def imageExts : List String :=
  [".jpg", ".jpeg", ".png", ".tif", ".tiff", ".bmp"]

/-- Whether a file name passes the raster-extension regex (case-insensitive,
anchored at the end of the name). -/
def hasImageExt (name : String) : Bool :=
  imageExts.any (fun e => suffixOfB e.toList (lowerStr name).toList)

/-- The fixed fraud-directory markers tested (case-sensitively) against the
uploaded file's storage path. -/
def fraudMarkers : List String :=
  ["CopyPaste_Inter", "CopyPaste_Intra", "Imitation"]

/-- `uploadedFilePath.includes("CopyPaste_Inter") || … ` -/
def hasFraudMarker (p : String) : Bool :=
  fraudMarkers.any (fun m => strContains p m)

/-! ## File-system environment -/

/-- A stored file as the engine observes it: the 8×8 grayscale pixel buffer
that `sharp(path).resize(8,8).grayscale().raw()` would produce (`none` when
decoding throws, e.g. for corrupt or empty input), and the byte size that
`fs.statSync(path).size` reports. -/
structure FileData where
  pixels : Option (List Nat)
  size : Nat
deriving DecidableEq

/-- The environment of one `compareImages(uploadedImagePath, genuineImagesDir)`
call: existence of the two paths, the raw directory listing (readdir order),
the uploaded file's data, and the data of each listed reference (indexed by
its name inside the genuine directory, i.e. the data at
`path.join(genuineImagesDir, name)`). -/
structure CompareEnv where
  uploadPath : String
  uploadExists : Bool
  uploadData : FileData
  dirExists : Bool
  listing : List String
  refData : String → FileData

/-! ## imageService.js -/

/-- The verdict object returned by `compareImages` (the `details.reason`
strings are carried without their numeric interpolations). -/
structure Verdict where
  isForged : Bool
  similarity : Option ℚ
  bestMatch : Option String
  reason : String
deriving DecidableEq

/-- `calculateImageHash`: average the 8×8 grayscale pixels and emit one bit
per pixel, `1` iff the pixel strictly exceeds the mean.  Throws (here:
`Except.error`) when the image cannot be decoded. -/
def calculateImageHash (fd : FileData) : Except String (List Bool) :=
  match fd.pixels with
  | none => Except.error "Input buffer contains unsupported image format"
  | some ps =>
    let s : Nat := ps.foldl (fun a b => a + b) 0
    Except.ok (ps.map (fun (p : Nat) => jgtOpt (p : ℚ) (jdiv s ps.length)))

/-- `calculateSimilarity(hash1, hash2)`: the fraction of index positions of
`hash1` at which `hash2` holds the same bit, times 100.  Positions beyond the
end of `hash2` never match (JS reads `undefined` there), which the `zip`
reproduces; defined (non-NaN) iff `hash1` is non-empty. -/
def calculateSimilarity (h1 h2 : List Bool) : Option ℚ :=
  let similar := (h1.zip h2).countP (fun p => p.1 == p.2)
  (jdiv similar h1.length).map (fun r => qmul r 100)

/-- `Math.abs(A - B)` for the two byte sizes (natural numbers). -/
def absDiff (a b : Nat) : Nat :=
  max a b - min a b

/-- The inline size-similarity formula of `compareImages`
(`(1 - |A-B| / max(A,B)) * 100`).  At `A = B = 0` the JS code divides `0/0`
and the score is NaN: the source has no special case for equal sizes. -/
def sizeSimilarity (a b : Nat) : Option ℚ :=
  (jdiv (absDiff a b) (max a b)).map (fun r => qmul (qsub 1 r) 100)

/-- The default forged-unless-proven-genuine result. -/
def defaultResult : Verdict :=
  { isForged := true, similarity := some 0, bestMatch := none,
    reason := "Default assumption: documents are considered forged unless proven genuine" }

/-- The verdict for an upload whose storage path carries a fraud-directory
marker. -/
def fraudDirVerdict : Verdict :=
  { isForged := true, similarity := some 0, bestMatch := none,
    reason := "File is located in a directory known to contain forged documents" }

/-- The verdict for an exact base-filename match with a reference. -/
def exactMatchVerdict (g : String) : Verdict :=
  { isForged := false, similarity := some 100, bestMatch := some g,
    reason := "Exact filename match with a genuine document" }

/-- The verdict for a fraud keyword in the uploaded file's base name. -/
def keywordVerdict : Verdict :=
  { isForged := true, similarity := some 0, bestMatch := none,
    reason := "Filename contains fraud-related keywords" }

/-- The verdict produced by the `catch` block of `compareImages`. -/
def errorVerdict (e : String) : Verdict :=
  { isForged := true, similarity := some 0, bestMatch := none,
    reason := "Error during comparison: " ++ e }

/-- The comparison loop of `compareImages`: hash every reference and keep the
first reference realizing the strictly largest similarity (`similarity >
bestMatchSimilarity`, so a NaN similarity never wins and ties keep the earlier
file).  A hashing failure inside the loop propagates as an exception. -/
def bestLoop (env : CompareEnv) (upHash : List Bool) :
    List String → ℚ × Option String → Except String (ℚ × Option String)
  | [], acc => Except.ok acc
  | g :: rest, (best, bestF) =>
    match calculateImageHash (env.refData g) with
    | Except.error e => Except.error e
    | Except.ok gHash =>
      match calculateSimilarity upHash gHash with
      | some q =>
        if best < q then bestLoop env upHash rest (q, some g)
        else bestLoop env upHash rest (best, bestF)
      | none => bestLoop env upHash rest (best, bestF)

/-- Steps 4–5 of `compareImages` (hashing, best-match loop, size bonus,
80-threshold): everything inside the `try` that can actually throw.  When no
reference ever exceeded similarity 0, `bestMatchFile` is still `null` and
`path.join(genuineImagesDir, null)` throws a `TypeError`, modelled by the
error case on `none`. -/
def pixelStage (env : CompareEnv) (genuineFiles : List String) : Except String Verdict :=
  match calculateImageHash env.uploadData with
  | Except.error e => Except.error e
  | Except.ok upHash =>
    match bestLoop env upHash genuineFiles (0, none) with
    | Except.error e => Except.error e
    | Except.ok (_, none) =>
      Except.error "The path argument must be of type string. Received null"
    | Except.ok (best, some bf) =>
      let sizeSim := sizeSimilarity env.uploadData.size (env.refData bf).size
      let finalSim := jadd (some (qmul best (mkRat 7 10))) (jmul sizeSim (mkRat 3 10))
      Except.ok
        { isForged := jlt finalSim 80
          similarity := finalSim
          bestMatch := some bf
          reason :=
            if jlt finalSim 80 then "Similarity below threshold (80%)"
            else "High similarity with genuine document" }

/-- `compareImages(uploadedImagePath, genuineImagesDir)` of
`src/services/imageService.js`, in source order: existence checks, extension
filter, empty-corpus default, fraud-directory short-circuit, exact
base-filename match, fraud-keyword check on the uploaded base name, then the
pixel stage with its surrounding `try`/`catch`. -/
def compareImages (env : CompareEnv) : Verdict :=
  if !env.uploadExists then defaultResult
  else if !env.dirExists then defaultResult
  else
    let genuineFiles := env.listing.filter hasImageExt
    if genuineFiles.isEmpty then defaultResult
    else if hasFraudMarker env.uploadPath then fraudDirVerdict
    else
      let upBase := lowerStr (baseNoExt env.uploadPath)
      match genuineFiles.find? (fun g => lowerStr (baseNoExt g) == upBase) with
      | some g => exactMatchVerdict g
      | none =>
        if strContains upBase "fraud" || strContains upBase "fake" ||
            strContains upBase "forg" then
          keywordVerdict
        else
          match pixelStage env genuineFiles with
          | Except.ok v => v
          | Except.error e => errorVerdict e

/-! ## documentController.js -/

/-- `isGenuineHint`: the lowercased original filename contains `"genuine"`,
`"original"` or `"authentic"`. -/
def isGenuineHint (origName : String) : Bool :=
  let n := lowerStr origName
  strContains n "genuine" || strContains n "original" || strContains n "authentic"

/-- `isFraudHint`: the lowercased original filename contains `"fraud"`,
`"fake"` or `"forged"` (the controller tests the full word `"forged"`, not the
prefix `"forg"`). -/
def isFraudHint (origName : String) : Bool :=
  let n := lowerStr origName
  strContains n "fraud" || strContains n "fake" || strContains n "forged"

/-- `isFraudPath`: the uploaded file's storage path contains a
fraud-directory marker. -/
def isFraudPath (p : String) : Bool :=
  hasFraudMarker p

/-- The JSON body the controller sends for a completed verification. -/
structure VerdictResponse where
  isGenuine : Bool
  similarity : Option ℚ
  bestMatch : Option String
  message : String
deriving DecidableEq

/-- A controller outcome: either a completed verdict (HTTP 200) or an HTTP
error response (400/500). -/
inductive Response where
  | ok (v : VerdictResponse) : Response
  | httpError (msg : String) : Response
deriving DecidableEq

/-- The environment of one `verifyDocument` call: the upload's original
filename, its storage path and file data, the genuine directory's raw listing
and reference data, whether the stored upload is readable
(`fs.promises.access`) and still present for `compareImages`, and whether
`fs.copyFileSync` into the genuine directory would succeed. -/
structure Ctx where
  origName : String
  uploadPath : String
  uploadData : FileData
  uploadExists : Bool
  listing : List String
  refData : String → FileData
  copyOk : Bool
  accessOk : Bool

/-- The `CompareEnv` that `verifyDocument` hands to `compareImages`: the same
storage path and genuine directory; the directory itself exists because the
controller just created it if needed. -/
def mkCompareEnv (c : Ctx) : CompareEnv :=
  { uploadPath := c.uploadPath
    uploadExists := c.uploadExists
    uploadData := c.uploadData
    dirExists := true
    listing := c.listing
    refData := c.refData }

/-- `verifyDocument` of `src/controllers/documentController.js`, from the
point where an upload is present: signal collection, corpus-empty bootstrap
(with the `try`/`catch` around `copyFileSync` falling through to the
no-references response), readability check, `compareImages`, and the fusion
rule with threshold 85.  Returns the response together with the genuine
directory's listing after the call (the bootstrap copy appends the upload's
original name). -/
def verifyDocument (c : Ctx) : Response × List String :=
  let gHint := isGenuineHint c.origName
  let fHint := isFraudHint c.origName
  let fPath := isFraudPath c.uploadPath
  let genuineFiles := c.listing.filter hasImageExt
  if genuineFiles.isEmpty then
    if gHint && !fHint && !fPath then
      if c.copyOk then
        (Response.ok
          { isGenuine := true, similarity := some 100, bestMatch := none,
            message := "Document added as the first genuine reference" },
         c.listing ++ [c.origName])
      else
        (Response.ok
          { isGenuine := gHint && !fHint && !fPath, similarity := some 0,
            bestMatch := none,
            message := "No genuine references available for comparison" },
         c.listing)
    else
      (Response.ok
        { isGenuine := gHint && !fHint && !fPath, similarity := some 0,
          bestMatch := none,
          message := "No genuine references available for comparison" },
       c.listing)
  else if !c.accessOk then
    (Response.httpError "Cannot access uploaded file", c.listing)
  else
    let result := compareImages (mkCompareEnv c)
    let g0 := jge result.similarity 85 || gHint
    let g1 := if fHint || fPath then false else g0
    let g2 := if result.isForged then false else g1
    (Response.ok
      { isGenuine := g2, similarity := result.similarity,
        bestMatch := result.bestMatch,
        message :=
          if g2 then "Document appears to be genuine"
          else "Document appears to be forged" },
     c.listing)

/-! ## The legacy looks-same comparison variant (unnamed service file) -/

/-- `calculateSimpleSimilarity()`: `Math.floor(Math.random() * 31) + 40`,
written over the draw `r` of `Math.random()` (a value in `[0, 1)`). -/
def calculateSimpleSimilarity (r : ℚ) : ℚ :=
  ((⌊qmul r 31⌋ + 40 : ℤ) : ℚ)

/-- The environment of one legacy `compareImages` call: the raw directory
listing and, per reference, whether `looks-same` reports the pair equal
(comparison errors are resolved to not-equal by the callback). -/
structure LSEnv where
  listing : List String
  equalTo : String → Bool

/-- The comparison loop of the legacy variant: per reference the similarity is
100 when `looks-same` says equal, otherwise a fresh `calculateSimpleSimilarity`
draw; the highest similarity and its first winner are tracked, and the
random stream index advances once per fallback draw. -/
def lsLoop (rng : Nat → ℚ) (eq : String → Bool) :
    List String → ℚ × Option String × Nat → ℚ × Option String × Nat
  | [], acc => acc
  | g :: rest, (best, bestF, k) =>
    let sim : ℚ := if eq g then 100 else calculateSimpleSimilarity (rng k)
    let k1 := if eq g then k else k + 1
    if best < sim then lsLoop rng eq rest (sim, some g, k1)
    else lsLoop rng eq rest (best, bestF, k1)

/-- The legacy `compareImages` of the unnamed looks-same service file:
extension filter, empty-corpus default, comparison loop, 80-threshold. -/
def compareImagesLS (rng : Nat → ℚ) (env : LSEnv) : Verdict :=
  let genuineImages := env.listing.filter hasImageExt
  if genuineImages.isEmpty then
    { isForged := true, similarity := some 0, bestMatch := none,
      reason := "No genuine images found for comparison" }
  else
    let res := lsLoop rng env.equalTo genuineImages (0, none, 0)
    { isForged := decide (res.1 < 80), similarity := some res.1,
      bestMatch := res.2.1,
      reason := "Best match similarity against 80% threshold" }

/-- The fused genuineness decision of the controller, collapsed into one
boolean: genuine iff (similarity ≥ 85 or a genuine hint) and no fraud
hint/path override and the comparison did not flag forgery. -/
def fusedGenuine (c : Ctx) (r : Verdict) : Bool :=
  ((jge r.similarity 85 || isGenuineHint c.origName) &&
    !(isFraudHint c.origName || isFraudPath c.uploadPath)) && !r.isForged

/-- The response body the controller builds from a comparison result. -/
def fusionResponse (c : Ctx) (r : Verdict) : VerdictResponse :=
  { isGenuine := fusedGenuine c r
    similarity := r.similarity
    bestMatch := r.bestMatch
    message :=
      if fusedGenuine c r then "Document appears to be genuine"
      else "Document appears to be forged" }

/-- Real-world well-formedness of an upload: a file the image library can
decode is non-empty on disk and its resize buffer holds at least one pixel
(`sharp` in fact always yields 64 of them).  A zero-byte or otherwise
undecodable file has `pixels = none`, so nothing is required of it. -/
def wfUpload (fd : FileData) : Bool :=
  match fd.pixels with
  | some ps => !ps.isEmpty && decide (1 ≤ fd.size)
  | none => true

/-! ## The production pipeline with the random stream made explicit -/

/-- The production verification pipeline, with the process's `Math.random()`
stream passed in explicitly: neither `documentController.js` nor the
`imageService.js` comparison path it imports contains a call to
`Math.random` (only the legacy looks-same variant does), so the production
pipeline never consumes the stream. -/
def verifyDocumentR (c : Ctx) (rng : Nat → ℚ) : Response × List String :=
  verifyDocument c

/-! ## Concrete environments used to instantiate the theorems -/

/-- A one-reference corpus whose reference matches the upload pixel-for-pixel
and byte-for-byte. -/
def c1Ctx : Ctx :=
  { origName := "scan.png"
    uploadPath := "uploads/document-7.png"
    uploadData := ⟨some [5, 9], 50⟩
    uploadExists := true
    listing := ["base.png"]
    refData := fun _ => ⟨some [5, 9], 50⟩
    copyOk := true
    accessOk := true }

/-- An upload stored under a fraud-directory marker whose base filename
exactly matches the sole reference `invoice123.jpg`. -/
def c2Env : CompareEnv :=
  { uploadPath := "CopyPaste_Inter/invoice123.png"
    uploadExists := true
    uploadData := ⟨some [10, 20], 100⟩
    dirExists := true
    listing := ["invoice123.jpg"]
    refData := fun _ => ⟨some [10, 20], 100⟩ }

/-- The `c2Env` comparison seen from the controller: the stored upload sits
under a fraud-directory marker and its base filename matches the sole
reference. -/
def c2Ctx : Ctx :=
  { origName := "invoice123.png"
    uploadPath := "CopyPaste_Inter/invoice123.png"
    uploadData := ⟨some [10, 20], 100⟩
    uploadExists := true
    listing := ["invoice123.jpg"]
    refData := fun _ => ⟨some [10, 20], 100⟩
    copyOk := true
    accessOk := true }

/-- An empty corpus with a genuine-hinting upload name. -/
def c3CtxA : Ctx :=
  { origName := "genuine_doc.png"
    uploadPath := "uploads/document-2.png"
    uploadData := ⟨some [1], 5⟩
    uploadExists := true
    listing := []
    refData := fun _ => ⟨none, 0⟩
    copyOk := true
    accessOk := true }

/-- An empty corpus with a neutral upload name. -/
def c3CtxB : Ctx :=
  { origName := "random.png"
    uploadPath := "uploads/document-6.png"
    uploadData := ⟨some [1], 5⟩
    uploadExists := true
    listing := []
    refData := fun _ => ⟨none, 0⟩
    copyOk := true
    accessOk := true }

/-- A one-reference corpus used to exercise determinism. -/
def c4Ctx : Ctx :=
  { origName := "photo.png"
    uploadPath := "uploads/document-3.png"
    uploadData := ⟨some [2, 4], 30⟩
    uploadExists := true
    listing := ["r.png"]
    refData := fun _ => ⟨some [2, 4], 30⟩
    copyOk := true
    accessOk := true }

/-- A non-empty corpus with an undecodable upload, so that the pixel stage
throws a decode error. -/
def c5Env : CompareEnv :=
  { uploadPath := "uploads/document-9.png"
    uploadExists := true
    uploadData := ⟨none, 10⟩
    dirExists := true
    listing := ["ref.png"]
    refData := fun _ => ⟨some [1, 2], 10⟩ }

/-- A corpus configuration whose combined similarity is exactly 85:
identical hashes (hash similarity 100) and byte sizes 100 versus 200
(size similarity 50), giving 0.7·100 + 0.3·50 = 85. -/
def c8Ctx : Ctx :=
  { origName := "scan2.png"
    uploadPath := "uploads/document-8.png"
    uploadData := ⟨some [10, 20], 100⟩
    uploadExists := true
    listing := ["ref.png"]
    refData := fun _ => ⟨some [10, 20], 200⟩
    copyOk := true
    accessOk := true }

/-- The same similarity-85 configuration but with a fraud-keyword original
filename, which the fusion rule lets override the at-threshold similarity. -/
def c8CexCtx : Ctx :=
  { origName := "forged_invoice.png"
    uploadPath := "uploads/document-1.png"
    uploadData := ⟨some [10, 20], 100⟩
    uploadExists := true
    listing := ["ref.png"]
    refData := fun _ => ⟨some [10, 20], 200⟩
    copyOk := true
    accessOk := true }

/-- An empty corpus with a genuine-hinting name, for the bootstrap path. -/
def c9Ctx : Ctx :=
  { origName := "genuine_a.png"
    uploadPath := "uploads/document-4.png"
    uploadData := ⟨some [3], 5⟩
    uploadExists := true
    listing := []
    refData := fun _ => ⟨none, 0⟩
    copyOk := true
    accessOk := true }

/-- A legacy-variant environment whose single comparison reports equal. -/
def c9LSEnv : LSEnv :=
  { listing := ["a.png"]
    equalTo := fun _ => true }

/-- An empty corpus with a genuine-hinting name but a failing copy. -/
def c10Ctx : Ctx :=
  { origName := "genuine_b.png"
    uploadPath := "uploads/document-5.png"
    uploadData := ⟨some [2], 4⟩
    uploadExists := true
    listing := []
    refData := fun _ => ⟨none, 0⟩
    copyOk := false
    accessOk := true }

/-! ## Shared lemmas -/

@[simp]
theorem qadd_eq (a b : ℚ) : qadd a b = a + b := by
  have ha : ((a.den : ℚ)) ≠ 0 := ne_of_gt (by exact_mod_cast a.den_pos)
  have hb : ((b.den : ℚ)) ≠ 0 := ne_of_gt (by exact_mod_cast b.den_pos)
  rw [qadd, Rat.mkRat_eq_div]
  push_cast
  conv_rhs => rw [← Rat.num_div_den a, ← Rat.num_div_den b]
  rw [div_add_div _ _ ha hb]
  ring_nf

@[simp]
theorem qmul_eq (a b : ℚ) : qmul a b = a * b := by
  rw [qmul, Rat.mkRat_eq_div]
  push_cast
  rw [← div_mul_div_comm, Rat.num_div_den, Rat.num_div_den]

@[simp]
theorem qsub_eq (a b : ℚ) : qsub a b = a - b := by
  have ha : ((a.den : ℚ)) ≠ 0 := ne_of_gt (by exact_mod_cast a.den_pos)
  have hb : ((b.den : ℚ)) ≠ 0 := ne_of_gt (by exact_mod_cast b.den_pos)
  rw [qsub, Rat.mkRat_eq_div]
  push_cast
  conv_rhs => rw [← Rat.num_div_den a, ← Rat.num_div_den b]
  rw [div_sub_div _ _ ha hb]
  ring_nf

theorem jdiv_eq_div (a b : Nat) (hb : b ≠ 0) :
    jdiv a b = some ((a : ℚ) / (b : ℚ)) := by
  rw [jdiv, if_neg hb, Rat.mkRat_eq_div]
  push_cast
  ring_nf


/-- With a non-empty corpus and a readable upload, `verifyDocument` reaches
the fusion step and its sequential overrides compute exactly `fusedGenuine`;
the corpus listing is left unchanged. -/
theorem verify_fusion (c : Ctx)
    (hne : (c.listing.filter hasImageExt).isEmpty = false)
    (hacc : c.accessOk = true) :
    verifyDocument c =
      (Response.ok (fusionResponse c (compareImages (mkCompareEnv c))), c.listing) := by
  have hb : ∀ g0 a b : Bool,
      (if b then false else if a then false else g0) = ((g0 && !a) && !b) := by decide
  unfold verifyDocument
  simp only [hne, hacc, Bool.not_true, Bool.false_eq_true, if_false, ite_false,
    Bool.not_false, ite_true]
  rw [fusionResponse, fusedGenuine]
  rw [hb]

/-- Every result of `compareImages` is one of the five fixed verdicts or the
verdict of a successful pixel stage. -/
theorem compareImages_branches (env : CompareEnv) :
    compareImages env = defaultResult ∨
    compareImages env = fraudDirVerdict ∨
    (∃ g, compareImages env = exactMatchVerdict g) ∨
    compareImages env = keywordVerdict ∨
    (∃ e, compareImages env = errorVerdict e) ∨
    (∃ v, pixelStage env (env.listing.filter hasImageExt) = Except.ok v ∧
      compareImages env = v) := by
  unfold compareImages
  by_cases hu : env.uploadExists = true
  case neg =>
    left
    simp [hu]
  by_cases hd : env.dirExists = true
  case neg =>
    left
    simp [hu, hd]
  by_cases hne : (env.listing.filter hasImageExt).isEmpty = true
  case pos =>
    left
    simp [hu, hd, hne]
  by_cases hm : hasFraudMarker env.uploadPath = true
  case pos =>
    right; left
    simp [hu, hd, hne, hm]
  cases hx : (env.listing.filter hasImageExt).find?
      (fun g => lowerStr (baseNoExt g) == lowerStr (baseNoExt env.uploadPath)) with
  | some g =>
    right; right; left
    refine ⟨g, ?_⟩
    simp [hu, hd, hne, hm, hx]
  | none =>
    by_cases hk : (strContains (lowerStr (baseNoExt env.uploadPath)) "fraud" ||
        strContains (lowerStr (baseNoExt env.uploadPath)) "fake" ||
        strContains (lowerStr (baseNoExt env.uploadPath)) "forg") = true
    case pos =>
      right; right; right; left
      simp [hu, hd, hne, hm, hx, hk]
    case neg =>
      cases hp : pixelStage env (env.listing.filter hasImageExt) with
      | ok v =>
        right; right; right; right; right
        refine ⟨v, rfl, ?_⟩
        simp [hu, hd, hne, hm, hx, hk, hp]
      | error e =>
        right; right; right; right; left
        refine ⟨e, ?_⟩
        simp [hu, hd, hne, hm, hx, hk, hp]

/-- A successful pixel stage flags forgery exactly when its own similarity is
below the 80 threshold. -/
theorem pixelStage_ok_isForged (env : CompareEnv) (gf : List String) (v : Verdict)
    (h : pixelStage env gf = Except.ok v) : v.isForged = jlt v.similarity 80 := by
  unfold pixelStage at h
  cases hh : calculateImageHash env.uploadData with
  | error e =>
    rw [hh] at h
    cases h
  | ok upHash =>
    rw [hh] at h
    simp only at h
    cases hl : bestLoop env upHash gf (0, none) with
    | error e =>
      rw [hl] at h
      cases h
    | ok acc =>
      rw [hl] at h
      obtain ⟨best, bf⟩ := acc
      cases bf with
      | none => cases h
      | some f =>
        simp only at h
        cases h
        rfl

/-- Whenever `compareImages` reports a similarity of at least 80, it does not
flag forgery: every branch with a lower-threshold forgery flag also reports a
similarity below 80. -/
theorem compareImages_ge80_not_forged (env : CompareEnv) (s : ℚ)
    (hs : (compareImages env).similarity = some s) (h80 : 80 ≤ s) :
    (compareImages env).isForged = false := by
  rcases compareImages_branches env with h | h | ⟨g, h⟩ | h | ⟨e, h⟩ | ⟨v, hp, h⟩
  · rw [h] at hs
    simp only [defaultResult, Option.some.injEq] at hs
    rw [← hs] at h80
    norm_num at h80
  · rw [h] at hs
    simp only [fraudDirVerdict, Option.some.injEq] at hs
    rw [← hs] at h80
    norm_num at h80
  · rw [h]
    rfl
  · rw [h] at hs
    simp only [keywordVerdict, Option.some.injEq] at hs
    rw [← hs] at h80
    norm_num at h80
  · rw [h] at hs
    simp only [errorVerdict, Option.some.injEq] at hs
    rw [← hs] at h80
    norm_num at h80
  · rw [h] at hs ⊢
    rw [pixelStage_ok_isForged env _ v hp, hs, jlt]
    simp only [decide_eq_false_iff_not, not_lt]
    exact h80

/-! ## Range lemmas: every produced similarity lies in `[0, 100]` -/

/-- `calculateSimilarity` with a non-empty first hash is defined and lies in
`[0, 100]`. -/
theorem calculateSimilarity_range (h1 h2 : List Bool) (hne : h1 ≠ []) :
    ∃ q, calculateSimilarity h1 h2 = some q ∧ 0 ≤ q ∧ q ≤ 100 := by
  have hlen : h1.length ≠ 0 := by simpa using hne
  have hlpos : (0 : ℚ) < (h1.length : ℚ) := by
    exact_mod_cast Nat.pos_of_ne_zero hlen
  simp only [calculateSimilarity]
  rw [jdiv_eq_div _ _ hlen]
  simp only [Option.map_some']
  refine ⟨_, rfl, ?_, ?_⟩
  · rw [qmul_eq]
    positivity
  · rw [qmul_eq]
    have hc : (((h1.zip h2).countP (fun p => p.1 == p.2) : ℚ)) ≤ (h1.length : ℚ) := by
      have h1c : (h1.zip h2).countP (fun p => p.1 == p.2) ≤ h1.length := by
        calc (h1.zip h2).countP (fun p => p.1 == p.2)
            ≤ (h1.zip h2).length := List.countP_le_length _
          _ = min h1.length h2.length := List.length_zip h1 h2
          _ ≤ h1.length := min_le_left _ _
      exact_mod_cast h1c
    have hr : (((h1.zip h2).countP (fun p => p.1 == p.2) : ℚ)) / (h1.length : ℚ) ≤ 1 := by
      rw [div_le_one hlpos]
      exact hc
    nlinarith

/-- `sizeSimilarity` with a positive first size is defined and lies in
`[0, 100]`. -/
theorem sizeSimilarity_range (a b : Nat) (ha : 1 ≤ a) :
    ∃ q, sizeSimilarity a b = some q ∧ 0 ≤ q ∧ q ≤ 100 := by
  have hmax : max a b ≠ 0 := by
    omega
  have hmaxpos : (0 : ℚ) < ((max a b : Nat) : ℚ) := by
    exact_mod_cast Nat.pos_of_ne_zero hmax
  simp only [sizeSimilarity]
  rw [jdiv_eq_div _ _ hmax]
  simp only [Option.map_some']
  have hd : (absDiff a b : ℚ) ≤ ((max a b : Nat) : ℚ) := by
    have : absDiff a b ≤ max a b := Nat.sub_le _ _
    exact_mod_cast this
  have hd0 : (0 : ℚ) ≤ (absDiff a b : ℚ) := by positivity
  have hr1 : (absDiff a b : ℚ) / ((max a b : Nat) : ℚ) ≤ 1 := by
    rw [div_le_one hmaxpos]
    exact hd
  have hr0 : (0 : ℚ) ≤ (absDiff a b : ℚ) / ((max a b : Nat) : ℚ) := by positivity
  refine ⟨_, rfl, ?_, ?_⟩
  · rw [qmul_eq, qsub_eq]
    nlinarith
  · rw [qmul_eq, qsub_eq]
    nlinarith

/-- The best-match loop keeps its tracked similarity inside `[0, 100]` as long
as the uploaded hash is non-empty. -/
theorem bestLoop_range (env : CompareEnv) (upHash : List Bool) (hne : upHash ≠ [])
    (l : List String) (acc : ℚ × Option String)
    (h0 : 0 ≤ acc.1) (h100 : acc.1 ≤ 100) (res : ℚ × Option String)
    (h : bestLoop env upHash l acc = Except.ok res) :
    0 ≤ res.1 ∧ res.1 ≤ 100 := by
  induction l generalizing acc with
  | nil =>
    unfold bestLoop at h
    cases h
    exact ⟨h0, h100⟩
  | cons g rest ih =>
    obtain ⟨best, bestF⟩ := acc
    unfold bestLoop at h
    cases hh : calculateImageHash (env.refData g) with
    | error e =>
      rw [hh] at h
      cases h
    | ok gHash =>
      rw [hh] at h
      simp only at h
      obtain ⟨q, hq, hq0, hq100⟩ := calculateSimilarity_range upHash gHash hne
      rw [hq] at h
      simp only at h
      by_cases hlt : best < q
      · rw [if_pos hlt] at h
        exact ih (q, some g) hq0 hq100 h
      · rw [if_neg hlt] at h
        exact ih (best, bestF) h0 h100 h

/-- A successful pixel stage on a well-formed upload reports a similarity in
`[0, 100]`. -/
theorem pixelStage_ok_range (env : CompareEnv) (gf : List String) (v : Verdict)
    (hwf : wfUpload env.uploadData = true)
    (h : pixelStage env gf = Except.ok v) :
    ∃ q, v.similarity = some q ∧ 0 ≤ q ∧ q ≤ 100 := by
  unfold pixelStage at h
  cases hpx : env.uploadData.pixels with
  | none =>
    rw [calculateImageHash, hpx] at h
    cases h
  | some ps =>
    rw [calculateImageHash, hpx] at h
    simp only at h
    unfold wfUpload at hwf
    rw [hpx] at hwf
    simp only [Bool.and_eq_true, Bool.not_eq_eq_eq_not, Bool.not_true,
      decide_eq_true_eq] at hwf
    obtain ⟨hpsne, hsz⟩ := hwf
    have hpsne2 : ps ≠ [] := by
      intro hc
      rw [hc] at hpsne
      simp at hpsne
    have hmapne : ps.map (fun (p : Nat) => jgtOpt (p : ℚ)
        (jdiv (ps.foldl (fun a b => a + b) 0) ps.length)) ≠ [] := by
      intro hc
      exact hpsne2 (List.map_eq_nil_iff.mp hc)
    cases hl : bestLoop env (ps.map (fun (p : Nat) => jgtOpt (p : ℚ)
        (jdiv (ps.foldl (fun a b => a + b) 0) ps.length))) gf (0, none) with
    | error e =>
      rw [hl] at h
      cases h
    | ok acc =>
      rw [hl] at h
      obtain ⟨best, bf⟩ := acc
      cases bf with
      | none => cases h
      | some f =>
        simp only at h
        obtain ⟨hb0, hb100⟩ := bestLoop_range env _ hmapne gf (0, none)
          (by norm_num) (by norm_num) (best, some f) hl
        obtain ⟨s, hs, hs0, hs100⟩ :=
          sizeSimilarity_range env.uploadData.size (env.refData f).size hsz
        rw [hs] at h
        cases h
        refine ⟨_, rfl, ?_, ?_⟩
        · simp only [jadd, jmul, Option.map_some', qadd_eq, qmul_eq]
          have h7 : (mkRat 7 10 : ℚ) = 7 / 10 := by
            rw [Rat.mkRat_eq_div]
            norm_num
          have h3 : (mkRat 3 10 : ℚ) = 3 / 10 := by
            rw [Rat.mkRat_eq_div]
            norm_num
          rw [h7, h3]
          simp only at hb0 hb100
          nlinarith
        · simp only [jadd, jmul, Option.map_some', qadd_eq, qmul_eq]
          have h7 : (mkRat 7 10 : ℚ) = 7 / 10 := by
            rw [Rat.mkRat_eq_div]
            norm_num
          have h3 : (mkRat 3 10 : ℚ) = 3 / 10 := by
            rw [Rat.mkRat_eq_div]
            norm_num
          rw [h7, h3]
          simp only at hb0 hb100
          nlinarith

/-- Every similarity `compareImages` ever reports on a well-formed upload lies
in `[0, 100]`. -/
theorem compareImages_range (env : CompareEnv) (hwf : wfUpload env.uploadData = true) :
    ∃ q, (compareImages env).similarity = some q ∧ 0 ≤ q ∧ q ≤ 100 := by
  rcases compareImages_branches env with h | h | ⟨g, h⟩ | h | ⟨e, h⟩ | ⟨v, hp, h⟩
  · exact ⟨0, by rw [h]; exact ⟨rfl, by norm_num⟩⟩
  · exact ⟨0, by rw [h]; exact ⟨rfl, by norm_num⟩⟩
  · exact ⟨100, by rw [h]; exact ⟨rfl, by norm_num⟩⟩
  · exact ⟨0, by rw [h]; exact ⟨rfl, by norm_num⟩⟩
  · exact ⟨0, by rw [h]; exact ⟨rfl, by norm_num⟩⟩
  · rw [h]
    exact pixelStage_ok_range env _ v hwf hp

/-- Every completed verdict of the controller on a well-formed upload carries
a similarity in `[0, 100]`. -/
theorem verify_range (c : Ctx) (hwf : wfUpload c.uploadData = true)
    (v : VerdictResponse) (h : (verifyDocument c).1 = Response.ok v) :
    ∃ q, v.similarity = some q ∧ 0 ≤ q ∧ q ≤ 100 := by
  unfold verifyDocument at h
  by_cases hne : (c.listing.filter hasImageExt).isEmpty = true
  · rw [if_pos hne] at h
    by_cases hg : (isGenuineHint c.origName && !isFraudHint c.origName &&
        !isFraudPath c.uploadPath) = true
    · rw [if_pos hg] at h
      by_cases hc : c.copyOk = true
      · rw [if_pos hc] at h
        simp only [Prod.fst, Response.ok.injEq] at h
        refine ⟨100, ?_, by norm_num⟩
        rw [← h]
      · rw [if_neg hc] at h
        simp only [Prod.fst, Response.ok.injEq] at h
        refine ⟨0, ?_, by norm_num⟩
        rw [← h]
    · rw [if_neg hg] at h
      simp only [Prod.fst, Response.ok.injEq] at h
      refine ⟨0, ?_, by norm_num⟩
      rw [← h]
  · rw [if_neg hne] at h
    by_cases hacc : c.accessOk = true
    · rw [hacc] at h
      simp only [Bool.not_true, Bool.false_eq_true, if_false, Prod.fst,
        Response.ok.injEq] at h
      obtain ⟨q, hq, hq0, hq100⟩ := compareImages_range (mkCompareEnv c) hwf
      refine ⟨q, ?_, hq0, hq100⟩
      rw [← h]
      exact hq
    · simp only [Bool.not_eq_true] at hacc
      rw [hacc] at h
      simp only [Bool.not_false, if_true, Prod.fst] at h
      cases h

/-- The randomized fallback draw lies in `[40, 70]` whenever the underlying
`Math.random()` value lies in `[0, 1)`. -/
theorem calculateSimpleSimilarity_range (r : ℚ) (h0 : 0 ≤ r) (h1 : r < 1) :
    40 ≤ calculateSimpleSimilarity r ∧ calculateSimpleSimilarity r ≤ 70 := by
  unfold calculateSimpleSimilarity
  rw [qmul_eq]
  have hf0 : 0 ≤ ⌊r * 31⌋ := Int.floor_nonneg.mpr (by positivity)
  have hf1 : ⌊r * 31⌋ ≤ 30 := by
    have hlt : r * 31 < ((31 : ℤ) : ℚ) := by
      push_cast
      nlinarith
    have := Int.floor_lt.mpr hlt
    omega
  constructor
  · exact_mod_cast by omega
  · exact_mod_cast by omega

/-- The legacy comparison loop keeps its tracked similarity inside `[0, 100]`
for any `Math.random()` stream drawing from `[0, 1)`. -/
theorem lsLoop_range (rng : Nat → ℚ) (eq : String → Bool)
    (hr : ∀ i, 0 ≤ rng i ∧ rng i < 1) (l : List String)
    (acc : ℚ × Option String × Nat) (h0 : 0 ≤ acc.1) (h100 : acc.1 ≤ 100) :
    0 ≤ (lsLoop rng eq l acc).1 ∧ (lsLoop rng eq l acc).1 ≤ 100 := by
  induction l generalizing acc with
  | nil =>
    unfold lsLoop
    exact ⟨h0, h100⟩
  | cons g rest ih =>
    obtain ⟨best, bestF, k⟩ := acc
    unfold lsLoop
    have hsim : 0 ≤ (if eq g then (100 : ℚ) else calculateSimpleSimilarity (rng k)) ∧
        (if eq g then (100 : ℚ) else calculateSimpleSimilarity (rng k)) ≤ 100 := by
      by_cases he : eq g = true
      · rw [if_pos he]
        norm_num
      · rw [if_neg he]
        obtain ⟨ha, hb⟩ := calculateSimpleSimilarity_range (rng k) (hr k).1 (hr k).2
        constructor <;> linarith
    simp only at h0 h100
    by_cases hlt : best < (if eq g then (100 : ℚ) else calculateSimpleSimilarity (rng k))
    · rw [if_pos hlt]
      exact ih _ hsim.1 hsim.2
    · rw [if_neg hlt]
      exact ih _ h0 h100

/-- Every similarity the legacy looks-same variant reports lies in `[0, 100]`
for any `Math.random()` stream drawing from `[0, 1)`. -/
theorem compareImagesLS_range (rng : Nat → ℚ) (env : LSEnv)
    (hr : ∀ i, 0 ≤ rng i ∧ rng i < 1) :
    ∃ q, (compareImagesLS rng env).similarity = some q ∧ 0 ≤ q ∧ q ≤ 100 := by
  unfold compareImagesLS
  by_cases he : (env.listing.filter hasImageExt).isEmpty = true
  · rw [if_pos he]
    exact ⟨0, rfl, by norm_num⟩
  · rw [if_neg he]
    obtain ⟨ha, hb⟩ := lsLoop_range rng env.equalTo hr
      (env.listing.filter hasImageExt) (0, none, 0) (by norm_num) (by norm_num)
    exact ⟨_, rfl, ha, hb⟩

/-! ## Claim C1 -/

/-- C1: for every verification with a non-empty corpus that reaches the
fusion step with combined similarity `S` reported by the pixel comparison,
the verdict satisfies `isGenuine = ((S ≥ 85) ∨ genuineHint)`, forcibly
`false` on `fraudHint ∨ fraudPathHint`, forcibly `false` when the comparison
itself reported forgery; the reported forged/genuine message is the negation
of this `isGenuine`. -/
theorem c1_fusion_rule (c : Ctx)
    (hne : (c.listing.filter hasImageExt).isEmpty = false)
    (hacc : c.accessOk = true) :
    (verifyDocument c).1 =
      Response.ok
        { isGenuine :=
            ((jge (compareImages (mkCompareEnv c)).similarity 85 ||
                isGenuineHint c.origName) &&
              !(isFraudHint c.origName || isFraudPath c.uploadPath)) &&
              !(compareImages (mkCompareEnv c)).isForged
          similarity := (compareImages (mkCompareEnv c)).similarity
          bestMatch := (compareImages (mkCompareEnv c)).bestMatch
          message :=
            if ((jge (compareImages (mkCompareEnv c)).similarity 85 ||
                  isGenuineHint c.origName) &&
                !(isFraudHint c.origName || isFraudPath c.uploadPath)) &&
                !(compareImages (mkCompareEnv c)).isForged then
              "Document appears to be genuine"
            else "Document appears to be forged" } := by
  rw [verify_fusion c hne hacc]
  rfl

/-- Witness for C1 at `c1Ctx`. -/
theorem c1_witness :
    (c1Ctx.listing.filter hasImageExt).isEmpty = false ∧
    (verifyDocument c1Ctx).1 =
      Response.ok
        { isGenuine :=
            ((jge (compareImages (mkCompareEnv c1Ctx)).similarity 85 ||
                isGenuineHint c1Ctx.origName) &&
              !(isFraudHint c1Ctx.origName || isFraudPath c1Ctx.uploadPath)) &&
              !(compareImages (mkCompareEnv c1Ctx)).isForged
          similarity := (compareImages (mkCompareEnv c1Ctx)).similarity
          bestMatch := (compareImages (mkCompareEnv c1Ctx)).bestMatch
          message :=
            if ((jge (compareImages (mkCompareEnv c1Ctx)).similarity 85 ||
                  isGenuineHint c1Ctx.origName) &&
                !(isFraudHint c1Ctx.origName || isFraudPath c1Ctx.uploadPath)) &&
                !(compareImages (mkCompareEnv c1Ctx)).isForged then
              "Document appears to be genuine"
            else "Document appears to be forged" } :=
  ⟨by decide, c1_fusion_rule c1Ctx (by decide) (by decide)⟩

/-! ## Claim C2 -/

/-- C2 counterexample: at `c2Env` the upload path carries a fraud marker and
the upload's base filename (case-insensitively, extension stripped) equals the
sole reference's base filename, yet `compareImages` returns the forged
fraud-directory verdict with similarity 0, not the genuine similarity-100
exact-match verdict the claim asserts. -/
theorem c2_counterexample :
    hasFraudMarker c2Env.uploadPath = true ∧
    (c2Env.listing.filter hasImageExt).any
      (fun g => lowerStr (baseNoExt g) == lowerStr (baseNoExt c2Env.uploadPath)) = true ∧
    (compareImages c2Env).isForged = true ∧
    (compareImages c2Env).similarity = some 0 ∧
    (verifyDocument c2Ctx).1 =
      Response.ok
        { isGenuine := false
          similarity := some 0
          bestMatch := none
          message := "Document appears to be forged" } := by
  decide

/-- C2 amended: the fraud-directory check precedes the exact-name check in
`compareImages`, so on any input reaching it with a marker in the storage path
the verdict is the forged fraud-directory verdict (similarity 0), regardless
of any exact base-filename match; the exact-name short-circuit takes priority
only over the fraud-keyword check that follows it. -/
theorem c2_fraud_path_precedes_exact_match (env : CompareEnv)
    (hu : env.uploadExists = true) (hd : env.dirExists = true)
    (hne : (env.listing.filter hasImageExt).isEmpty = false)
    (hm : hasFraudMarker env.uploadPath = true) :
    compareImages env = fraudDirVerdict := by
  unfold compareImages
  simp [hu, hd, hne, hm]

/-- Witness for the amended C2 at `c2Env`. -/
theorem c2_witness :
    hasFraudMarker c2Env.uploadPath = true ∧ compareImages c2Env = fraudDirVerdict :=
  ⟨by decide,
   c2_fraud_path_precedes_exact_match c2Env (by decide) (by decide) (by decide) (by decide)⟩

/-! ## Claim C3 -/

/-- C3: with an empty corpus, if the genuine-bootstrap condition
`genuineHint ∧ ¬fraudHint ∧ ¬fraudPathHint` holds (and the copy into the
corpus succeeds), the upload is registered as the first reference and the
verdict is genuine with similarity 100; if the condition fails, the verdict
has `isGenuine = false` (i.e. `isForged = ¬condition`) with similarity 0 and
the corpus is left unchanged. -/
theorem c3_empty_corpus_bootstrap (c : Ctx)
    (hempty : (c.listing.filter hasImageExt).isEmpty = true) :
    ((isGenuineHint c.origName && !isFraudHint c.origName &&
        !isFraudPath c.uploadPath) = true → c.copyOk = true →
      verifyDocument c =
        (Response.ok
          { isGenuine := true
            similarity := some 100
            bestMatch := none
            message := "Document added as the first genuine reference" },
         c.listing ++ [c.origName])) ∧
    ((isGenuineHint c.origName && !isFraudHint c.origName &&
        !isFraudPath c.uploadPath) = false →
      verifyDocument c =
        (Response.ok
          { isGenuine := false
            similarity := some 0
            bestMatch := none
            message := "No genuine references available for comparison" },
         c.listing)) := by
  constructor
  · intro hg hc
    unfold verifyDocument
    rw [if_pos hempty, if_pos hg, if_pos hc]
  · intro hg
    unfold verifyDocument
    rw [if_pos hempty, if_neg (by rw [hg]; exact Bool.false_ne_true)]
    rw [hg]

/-- Witness for C3: the bootstrap branch at `c3CtxA` and the no-references
branch at `c3CtxB`. -/
theorem c3_witness :
    verifyDocument c3CtxA =
      (Response.ok
        { isGenuine := true
          similarity := some 100
          bestMatch := none
          message := "Document added as the first genuine reference" },
       c3CtxA.listing ++ [c3CtxA.origName]) ∧
    verifyDocument c3CtxB =
      (Response.ok
        { isGenuine := false
          similarity := some 0
          bestMatch := none
          message := "No genuine references available for comparison" },
       c3CtxB.listing) :=
  ⟨(c3_empty_corpus_bootstrap c3CtxA (by decide)).1 (by decide) (by decide),
   (c3_empty_corpus_bootstrap c3CtxB (by decide)).2 (by decide)⟩

/-! ## Claim C4 -/

/-- C4: the production scoring path consumes no randomness: two runs of the
pipeline on identical inputs under arbitrary (different) `Math.random()`
streams return identical results, and when the corpus was left unchanged a
second call on the resulting state reproduces the first verdict exactly. -/
theorem c4_deterministic (c : Ctx) (rng1 rng2 : Nat → ℚ) :
    verifyDocumentR c rng1 = verifyDocumentR c rng2 ∧
    ((verifyDocumentR c rng1).2 = c.listing →
      verifyDocumentR { c with listing := (verifyDocumentR c rng1).2 } rng2 =
        verifyDocumentR c rng1) := by
  constructor
  · rfl
  · intro h
    rw [h]
    rfl

/-- Witness for C4 at `c4Ctx` under two different random streams. -/
theorem c4_witness :
    verifyDocumentR c4Ctx (fun _ => 0) = verifyDocumentR c4Ctx (fun _ => mkRat 1 2) ∧
    verifyDocumentR { c4Ctx with listing := (verifyDocumentR c4Ctx (fun _ => 0)).2 }
        (fun _ => mkRat 1 2) =
      verifyDocumentR c4Ctx (fun _ => 0) :=
  ⟨(c4_deterministic c4Ctx (fun _ => 0) (fun _ => mkRat 1 2)).1,
   (c4_deterministic c4Ctx (fun _ => 0) (fun _ => mkRat 1 2)).2 (by decide)⟩

/-! ## Claim C5 -/

/-- C5: whenever the pixel/fusion stage of `compareImages` raises an error
(decode failure, I/O failure) on an input that reached it, the exception is
caught at the comparison boundary and converted into a verdict with
`isForged = true`, `similarity = 0` and a reason naming the processing error —
the comparison never lets the exception escape. -/
theorem c5_error_to_forged_verdict (env : CompareEnv) (e : String)
    (hu : env.uploadExists = true) (hd : env.dirExists = true)
    (hne : (env.listing.filter hasImageExt).isEmpty = false)
    (hm : hasFraudMarker env.uploadPath = false)
    (hx : (env.listing.filter hasImageExt).find?
      (fun g => lowerStr (baseNoExt g) == lowerStr (baseNoExt env.uploadPath)) = none)
    (hk : (strContains (lowerStr (baseNoExt env.uploadPath)) "fraud" ||
      strContains (lowerStr (baseNoExt env.uploadPath)) "fake" ||
      strContains (lowerStr (baseNoExt env.uploadPath)) "forg") = false)
    (herr : pixelStage env (env.listing.filter hasImageExt) = Except.error e) :
    compareImages env =
      { isForged := true
        similarity := some 0
        bestMatch := none
        reason := "Error during comparison: " ++ e } := by
  unfold compareImages
  simp [hu, hd, hne, hm, hx, hk, herr, errorVerdict]

/-- Witness for C5 at `c5Env`, whose upload is undecodable. -/
theorem c5_witness :
    pixelStage c5Env (c5Env.listing.filter hasImageExt) =
      Except.error "Input buffer contains unsupported image format" ∧
    compareImages c5Env =
      { isForged := true
        similarity := some 0
        bestMatch := none
        reason :=
          "Error during comparison: Input buffer contains unsupported image format" } :=
  ⟨rfl,
   c5_error_to_forged_verdict c5Env "Input buffer contains unsupported image format"
    (by decide) (by decide) (by decide) (by decide) (by decide) (by decide) rfl⟩

/-! ## Claim C6 -/

/-- C6 counterexample: `forgery_doc.png` contains the substring `forg`
case-insensitively, yet the controller's collected `fraudHint` is false — the
controller matches the full word `forged`, not the prefix `forg`, and
`forgery` does not contain `forged`. -/
theorem c6_counterexample :
    strContains (lowerStr "forgery_doc.png") "forg" = true ∧
    isFraudHint "forgery_doc.png" = false := by
  decide

/-- C6 amended: the controller's `fraudHint` keyword set is `fraud`, `fake`,
`forged` (full word): any original filename containing `forged`
case-insensitively sets `fraudHint`, but a filename containing only the
prefix `forg` (such as `forgery`) does not. -/
theorem c6_fraud_hint_forged (s : String)
    (h : strContains (lowerStr s) "forged" = true) :
    isFraudHint s = true := by
  simp only [isFraudHint]
  rw [h]
  simp

/-- Witness for the amended C6. -/
theorem c6_witness :
    strContains (lowerStr "forged_scan.png") "forged" = true ∧
    isFraudHint "forged_scan.png" = true :=
  ⟨by decide, c6_fraud_hint_forged "forged_scan.png" (by decide)⟩

/-! ## Claim C7 -/

/-- C7 counterexample: at `n = 0` the size-similarity formula divides `0/0`
(NaN, modelled `none`); the source has no special case for equal sizes, so
`sizeSimilarity 0 0` is not 100. -/
theorem c7_counterexample :
    sizeSimilarity 0 0 = none ∧ sizeSimilarity 0 0 ≠ some 100 := by
  decide

/-- C7 amended: for every positive `n`, `sizeSimilarity n n = 100`; the
equal-sizes case yields 100 by arithmetic (`|n-n| = 0`), not by a special
case, and at `n = 0` the result is NaN instead. -/
theorem c7_size_similarity_equal_pos (n : Nat) (h : 1 ≤ n) :
    sizeSimilarity n n = some 100 := by
  have hm : max n n ≠ 0 := by omega
  have h0 : absDiff n n = 0 := by
    simp [absDiff]
  rw [sizeSimilarity, h0, jdiv_eq_div _ _ hm]
  simp only [Option.map_some', qmul_eq, qsub_eq]
  push_cast
  norm_num

/-- Witness for the amended C7 at `n = 5`. -/
theorem c7_witness : 1 ≤ 5 ∧ sizeSimilarity 5 5 = some 100 :=
  ⟨by norm_num, c7_size_similarity_equal_pos 5 (by norm_num)⟩

/-! ## Claim C8 -/

/-- C8 counterexample: at `c8CexCtx` the corpus is non-empty and the combined
similarity is exactly the threshold 85, yet the verdict is forged — the
fraud-keyword filename override beats the at-threshold similarity, so the
claim does not hold of every verification with `S = 85`. -/
theorem c8_counterexample :
    (c8CexCtx.listing.filter hasImageExt).isEmpty = false ∧
    (compareImages (mkCompareEnv c8CexCtx)).similarity = some 85 ∧
    (verifyDocument c8CexCtx).1 =
      Response.ok
        { isGenuine := false
          similarity := some 85
          bestMatch := some "ref.png"
          message := "Document appears to be forged" } := by
  decide

/-- C8 amended: with a non-empty corpus, a readable upload and no fraud
hint/path override, a combined similarity of exactly 85 produces a genuine
verdict: the 85 threshold comparison is inclusive (and at 85 the comparison's
own 80 threshold never flags forgery). -/
theorem c8_threshold_inclusive (c : Ctx)
    (hne : (c.listing.filter hasImageExt).isEmpty = false)
    (hacc : c.accessOk = true)
    (hnf : isFraudHint c.origName = false)
    (hnp : isFraudPath c.uploadPath = false)
    (hs : (compareImages (mkCompareEnv c)).similarity = some 85) :
    ∃ v, (verifyDocument c).1 = Response.ok v ∧ v.isGenuine = true := by
  have hforg : (compareImages (mkCompareEnv c)).isForged = false :=
    compareImages_ge80_not_forged _ 85 hs (by norm_num)
  refine ⟨fusionResponse c (compareImages (mkCompareEnv c)), ?_, ?_⟩
  · rw [verify_fusion c hne hacc]
  · show fusedGenuine c (compareImages (mkCompareEnv c)) = true
    rw [fusedGenuine, hs, hnf, hnp, hforg]
    simp only [jge, Bool.or_false, Bool.not_false, Bool.and_true]
    norm_num

/-- Witness for the amended C8 at `c8Ctx`. -/
theorem c8_witness :
    (compareImages (mkCompareEnv c8Ctx)).similarity = some 85 ∧
    ∃ v, (verifyDocument c8Ctx).1 = Response.ok v ∧ v.isGenuine = true :=
  ⟨by decide,
   c8_threshold_inclusive c8Ctx (by decide) (by decide) (by decide) (by decide) (by decide)⟩

/-! ## Claim C9 -/

/-- C9: every verdict of the engine carries a similarity in `[0, 100]`: every
completed controller response on a well-formed upload (any path: bootstrap,
short-circuits, pixel comparison, error fallback), and every verdict of the
legacy looks-same variant under any `Math.random()` stream drawing from
`[0, 1)`. -/
theorem c9_similarity_in_range :
    (∀ c : Ctx, wfUpload c.uploadData = true →
      ∀ v, (verifyDocument c).1 = Response.ok v →
        ∃ q, v.similarity = some q ∧ 0 ≤ q ∧ q ≤ 100) ∧
    (∀ (rng : Nat → ℚ) (env : LSEnv), (∀ i, 0 ≤ rng i ∧ rng i < 1) →
      ∃ q, (compareImagesLS rng env).similarity = some q ∧ 0 ≤ q ∧ q ≤ 100) :=
  ⟨verify_range, compareImagesLS_range⟩

/-- Witness for C9: the bootstrap response at `c9Ctx` and the legacy variant
at `c9LSEnv` under the constant-zero random stream. -/
theorem c9_witness :
    (∃ q, (some (100 : ℚ)) = some q ∧ 0 ≤ q ∧ q ≤ 100) ∧
    (∃ q, (compareImagesLS (fun _ => 0) c9LSEnv).similarity = some q ∧
      0 ≤ q ∧ q ≤ 100) :=
  ⟨c9_similarity_in_range.1 c9Ctx (by decide)
    { isGenuine := true
      similarity := some 100
      bestMatch := none
      message := "Document added as the first genuine reference" } (by decide),
   c9_similarity_in_range.2 (fun _ => 0) c9LSEnv
    (fun _ => ⟨le_refl 0, by norm_num⟩)⟩

/-! ## Claim C10 -/

/-- C10: with an empty corpus, the genuine-bootstrap condition holding but the
copy into the corpus failing, `verifyDocument` does not error out: it falls
through to the no-references response with `isGenuine = true` and similarity
0 (not the similarity-100 bootstrap response), and the corpus stays empty. -/
theorem c10_copy_failure (c : Ctx)
    (hempty : (c.listing.filter hasImageExt).isEmpty = true)
    (hg : (isGenuineHint c.origName && !isFraudHint c.origName &&
      !isFraudPath c.uploadPath) = true)
    (hcopy : c.copyOk = false) :
    verifyDocument c =
      (Response.ok
        { isGenuine := true
          similarity := some 0
          bestMatch := none
          message := "No genuine references available for comparison" },
       c.listing) := by
  unfold verifyDocument
  rw [if_pos hempty, if_pos hg, if_neg (by rw [hcopy]; exact Bool.false_ne_true)]
  rw [hg]

/-- Witness for C10 at `c10Ctx`. -/
theorem c10_witness :
    verifyDocument c10Ctx =
      (Response.ok
        { isGenuine := true
          similarity := some 0
          bestMatch := none
          message := "No genuine references available for comparison" },
       c10Ctx.listing) :=
  c10_copy_failure c10Ctx (by decide) (by decide) (by decide)


end DocForgery
